import Mathlib

/-!
Verification development for the candle-ext tensor extension library.

The library adds PyTorch-style tensor operations on top of the candle tensor
engine.  The sources embedded here are `src/allclose.rs` (the free function
`F::allclose`) and `src/lib.rs` (the `TensorExt` and `TensorVecExt` trait
implementations, which delegate every method to the corresponding free
function on `F`).  The bodies of the remaining operation modules
(`triangular.rs`, `masked_fill.rs`, `unbind.rs`, `chunk.rs`, `outer.rs`,
`eye.rs`, `equal.rs`, `logical_not.rs`, `values_like.rs`,
`scaled_dot_product_attention.rs`) are not in the sources; where a property
needs them, the definition is modelled from the specification and its doc
comment says so.

Tensor elements are idealised as rationals.  For operations indexed along a
chosen dimension (unbind, chunk) a tensor is viewed through its slices along
that dimension, as a function from the index along the dimension to the
slice.  The working exponential of the attention softmax is an explicit
function parameter, extended by exp of negative infinity being zero.
-/

/-- Error kinds of the error-handling taxonomy of the specification
(ShapeMismatch, InvalidShape, InvalidSplit, ArityMismatch, InvalidMask,
ConflictingMask, DtypeMismatch). -/
inductive CandleError where
  | shapeMismatch
  | invalidShape
  | invalidSplit
  | arityMismatch
  | invalidMask
  | conflictingMask
  | dtypeMismatch
  deriving DecidableEq, Repr

/-- A tensor value as consumed by the whole-tensor comparisons `equal` and
`allclose`: a shape (list of dimension sizes) together with its flattened
element data, elements idealised as rationals. -/
structure Tensor where
  shape : List Nat
  data : List ℚ
  deriving DecidableEq, Repr

/-- Consecutive groups of at most `fuel` chunks of `k` slices each, taken in
order from the front of the list (helper for the chunk family). -/
def chunkGroups {α : Type} (k : Nat) : Nat → List α → List (List α)
  | 0, _ => []
  | _, [] => []
  | fuel + 1, l => l.take k :: chunkGroups k fuel (l.drop k)

namespace F

/-- Embedding of `F::allclose` from `src/allclose.rs`.  The source body is
`Ok(true)`: it ignores both tensors and both tolerance arguments entirely. -/
def allclose (input other : Tensor) (rtol atol : Option ℚ) :
    Except CandleError Bool :=
  Except.ok true

/-- Modelled from the spec: `F::tril` (the body of `triangular.rs` is not in
the sources).  Per-element lower-triangular masking: element `(i, j)` is
kept when `j - i <= d` and zeroed otherwise. -/
def tril {r c : Nat} (x : Fin r → Fin c → ℚ) (d : ℤ) : Fin r → Fin c → ℚ :=
  fun i j => if ((j : Nat) : ℤ) - ((i : Nat) : ℤ) ≤ d then x i j else 0

/-- Modelled from the spec: `F::triu` (the body of `triangular.rs` is not in
the sources).  Per-element upper-triangular masking: element `(i, j)` is
kept when `j - i >= d` and zeroed otherwise. -/
def triu {r c : Nat} (x : Fin r → Fin c → ℚ) (d : ℤ) : Fin r → Fin c → ℚ :=
  fun i j => if d ≤ ((j : Nat) : ℤ) - ((i : Nat) : ℤ) then x i j else 0

/-- Modelled from the spec: `F::logical_not` (`logical_not.rs` is not in the
sources): elementwise boolean complement. -/
def logical_not {ι : Type} (x : ι → Bool) : ι → Bool :=
  fun idx => !(x idx)

/-- Modelled from the spec: `F::values_like` (`values_like.rs` is not in the
sources): a tensor of the shape of `x` filled with the given value. -/
def values_like {ι : Type} (x : ι → ℚ) (v : ℚ) : ι → ℚ :=
  fun _ => v

/-- Modelled from the spec: `F::masked_fill` (`masked_fill.rs` is not in the
sources): positions where the mask is true receive the fill value, all
other positions keep the value of `x`; `x` is not mutated. -/
def masked_fill {ι : Type} (x : ι → ℚ) (mask : ι → Bool) (v : ℚ) : ι → ℚ :=
  fun idx => if mask idx then v else x idx

/-- Modelled from the spec: `F::outer` (`outer.rs` is not in the sources):
outer product of two 1-D tensors. -/
def outer {n m : Nat} (a : Fin n → ℚ) (b : Fin m → ℚ) : Fin n → Fin m → ℚ :=
  fun i j => a i * b j

/-- Modelled from the spec: `F::eye` (`eye.rs` is not in the sources):
square identity matrix, 1 on the main diagonal and 0 elsewhere (dtype and
device are dropped in the idealisation). -/
def eye (n : Nat) : Fin n → Fin n → ℚ :=
  fun i j => if i = j then 1 else 0

/-- Modelled from the spec: `F::equal` (`equal.rs` is not in the sources):
true iff the shapes and all elements are identical. -/
def equal (a b : Tensor) : Bool :=
  decide (a.shape = b.shape) && decide (a.data = b.data)

/-- Modelled from the spec: `F::unbind` (`unbind.rs` is not in the sources):
lists the slices along the chosen dimension in order. -/
def unbind {n : Nat} {α : Type} (x : Fin n → α) : List α :=
  List.ofFn x

/-- Modelled from the spec: `F::unbind2` requires the size along the chosen
dimension to be exactly 2 and returns the pair of slices, failing with
ShapeMismatch otherwise. -/
def unbind2 {n : Nat} {α : Type} (x : Fin n → α) : Except CandleError (α × α) :=
  match List.ofFn x with
  | [a, b] => Except.ok (a, b)
  | _ => Except.error CandleError.shapeMismatch

/-- Modelled from the spec: `F::unbind3`, as `unbind2` with arity 3. -/
def unbind3 {n : Nat} {α : Type} (x : Fin n → α) :
    Except CandleError (α × α × α) :=
  match List.ofFn x with
  | [a, b, c] => Except.ok (a, b, c)
  | _ => Except.error CandleError.shapeMismatch

/-- Modelled from the spec: `F::unbind4`, as `unbind2` with arity 4. -/
def unbind4 {n : Nat} {α : Type} (x : Fin n → α) :
    Except CandleError (α × α × α × α) :=
  match List.ofFn x with
  | [a, b, c, d] => Except.ok (a, b, c, d)
  | _ => Except.error CandleError.shapeMismatch

/-- Modelled from the spec: `F::unbind5`, as `unbind2` with arity 5. -/
def unbind5 {n : Nat} {α : Type} (x : Fin n → α) :
    Except CandleError (α × α × α × α × α) :=
  match List.ofFn x with
  | [a, b, c, d, e] => Except.ok (a, b, c, d, e)
  | _ => Except.error CandleError.shapeMismatch

/-- Modelled from the spec: `F::chunk2` (`chunk.rs` is not in the sources):
splits the slices along the chosen dimension into 2 equal-or-near-equal
consecutive parts (ceiling chunk size, last part possibly smaller), failing
with InvalidSplit when exactly 2 nonempty parts cannot be produced. -/
def chunk2 {n : Nat} {α : Type} (x : Fin n → α) :
    Except CandleError (List α × List α) :=
  match chunkGroups ((n + 1) / 2) 2 (List.ofFn x) with
  | [a, b] => Except.ok (a, b)
  | _ => Except.error CandleError.invalidSplit

/-- Modelled from the spec: `F::chunk3`, as `chunk2` with 3 parts. -/
def chunk3 {n : Nat} {α : Type} (x : Fin n → α) :
    Except CandleError (List α × List α × List α) :=
  match chunkGroups ((n + 2) / 3) 3 (List.ofFn x) with
  | [a, b, c] => Except.ok (a, b, c)
  | _ => Except.error CandleError.invalidSplit

/-- Modelled from the spec: `F::chunk4`, as `chunk2` with 4 parts. -/
def chunk4 {n : Nat} {α : Type} (x : Fin n → α) :
    Except CandleError (List α × List α × List α × List α) :=
  match chunkGroups ((n + 3) / 4) 4 (List.ofFn x) with
  | [a, b, c, d] => Except.ok (a, b, c, d)
  | _ => Except.error CandleError.invalidSplit

/-- Modelled from the spec: `F::chunk5`, as `chunk2` with 5 parts. -/
def chunk5 {n : Nat} {α : Type} (x : Fin n → α) :
    Except CandleError (List α × List α × List α × List α × List α) :=
  match chunkGroups ((n + 4) / 5) 5 (List.ofFn x) with
  | [a, b, c, d, e] => Except.ok (a, b, c, d, e)
  | _ => Except.error CandleError.invalidSplit

/-- Modelled from the spec: `F::unbind_vec2` (`unbind.rs` is not in the
sources): destructures a list of exactly 2 tensors into a pair, failing
with ArityMismatch when the length differs. -/
def unbind_vec2 (v : List Tensor) : Except CandleError (Tensor × Tensor) :=
  match v with
  | [a, b] => Except.ok (a, b)
  | _ => Except.error CandleError.arityMismatch

/-- Modelled from the spec: `F::unbind_vec3`, as `unbind_vec2` with arity 3. -/
def unbind_vec3 (v : List Tensor) :
    Except CandleError (Tensor × Tensor × Tensor) :=
  match v with
  | [a, b, c] => Except.ok (a, b, c)
  | _ => Except.error CandleError.arityMismatch

/-- Modelled from the spec: `F::unbind_vec4`, as `unbind_vec2` with arity 4. -/
def unbind_vec4 (v : List Tensor) :
    Except CandleError (Tensor × Tensor × Tensor × Tensor) :=
  match v with
  | [a, b, c, d] => Except.ok (a, b, c, d)
  | _ => Except.error CandleError.arityMismatch

/-- Modelled from the spec: `F::unbind_vec5`, as `unbind_vec2` with arity 5. -/
def unbind_vec5 (v : List Tensor) :
    Except CandleError (Tensor × Tensor × Tensor × Tensor × Tensor) :=
  match v with
  | [a, b, c, d, e] => Except.ok (a, b, c, d, e)
  | _ => Except.error CandleError.arityMismatch

end F

namespace TensorExt

/-- Embedding of the method form from `impl TensorExt for Tensor` in
`src/lib.rs`: `tril` delegates to `F::tril`. -/
def tril {r c : Nat} (x : Fin r → Fin c → ℚ) (d : ℤ) : Fin r → Fin c → ℚ :=
  F.tril x d

/-- Method form from `src/lib.rs`: delegates to `F::triu`. -/
def triu {r c : Nat} (x : Fin r → Fin c → ℚ) (d : ℤ) : Fin r → Fin c → ℚ :=
  F.triu x d

/-- Method form from `src/lib.rs`: delegates to `F::logical_not`. -/
def logical_not {ι : Type} (x : ι → Bool) : ι → Bool :=
  F.logical_not x

/-- Method form from `src/lib.rs`: delegates to `F::values_like`. -/
def values_like {ι : Type} (x : ι → ℚ) (v : ℚ) : ι → ℚ :=
  F.values_like x v

/-- Method form from `src/lib.rs`: delegates to `F::masked_fill`. -/
def masked_fill {ι : Type} (x : ι → ℚ) (mask : ι → Bool) (v : ℚ) : ι → ℚ :=
  F.masked_fill x mask v

/-- Method form from `src/lib.rs`: delegates to `F::outer`. -/
def outer {n m : Nat} (a : Fin n → ℚ) (b : Fin m → ℚ) : Fin n → Fin m → ℚ :=
  F.outer a b

/-- Method form from `src/lib.rs`: delegates to `F::eye`. -/
def eye (n : Nat) : Fin n → Fin n → ℚ :=
  F.eye n

/-- Method form from `src/lib.rs`: delegates to `F::equal`. -/
def equal (a b : Tensor) : Bool :=
  F.equal a b

/-- Method form from `src/lib.rs`: delegates to `F::unbind`. -/
def unbind {n : Nat} {α : Type} (x : Fin n → α) : List α :=
  F.unbind x

/-- Method form from `src/lib.rs`: delegates to `F::unbind2`. -/
def unbind2 {n : Nat} {α : Type} (x : Fin n → α) : Except CandleError (α × α) :=
  F.unbind2 x

/-- Method form from `src/lib.rs`: delegates to `F::unbind3`. -/
def unbind3 {n : Nat} {α : Type} (x : Fin n → α) :
    Except CandleError (α × α × α) :=
  F.unbind3 x

/-- Method form from `src/lib.rs`: delegates to `F::unbind4`. -/
def unbind4 {n : Nat} {α : Type} (x : Fin n → α) :
    Except CandleError (α × α × α × α) :=
  F.unbind4 x

/-- Method form from `src/lib.rs`: delegates to `F::unbind5`. -/
def unbind5 {n : Nat} {α : Type} (x : Fin n → α) :
    Except CandleError (α × α × α × α × α) :=
  F.unbind5 x

/-- Method form from `src/lib.rs`: delegates to `F::chunk2`. -/
def chunk2 {n : Nat} {α : Type} (x : Fin n → α) :
    Except CandleError (List α × List α) :=
  F.chunk2 x

/-- Method form from `src/lib.rs`: delegates to `F::chunk3`. -/
def chunk3 {n : Nat} {α : Type} (x : Fin n → α) :
    Except CandleError (List α × List α × List α) :=
  F.chunk3 x

/-- Method form from `src/lib.rs`: delegates to `F::chunk4`. -/
def chunk4 {n : Nat} {α : Type} (x : Fin n → α) :
    Except CandleError (List α × List α × List α × List α) :=
  F.chunk4 x

/-- Method form from `src/lib.rs`: delegates to `F::chunk5`. -/
def chunk5 {n : Nat} {α : Type} (x : Fin n → α) :
    Except CandleError (List α × List α × List α × List α × List α) :=
  F.chunk5 x

end TensorExt

namespace TensorVecExt

/-- Embedding of the method form from `impl TensorVecExt for Vec<Tensor>` in
`src/lib.rs`: `unbind2` delegates to `F::unbind_vec2`. -/
def unbind2 (v : List Tensor) : Except CandleError (Tensor × Tensor) :=
  F.unbind_vec2 v

/-- Method form from `src/lib.rs`: delegates to `F::unbind_vec3`. -/
def unbind3 (v : List Tensor) : Except CandleError (Tensor × Tensor × Tensor) :=
  F.unbind_vec3 v

/-- Method form from `src/lib.rs`: delegates to `F::unbind_vec4`. -/
def unbind4 (v : List Tensor) :
    Except CandleError (Tensor × Tensor × Tensor × Tensor) :=
  F.unbind_vec4 v

/-- Method form from `src/lib.rs`: delegates to `F::unbind_vec5`. -/
def unbind5 (v : List Tensor) :
    Except CandleError (Tensor × Tensor × Tensor × Tensor × Tensor) :=
  F.unbind_vec5 v

end TensorVecExt

/-- Documented default relative tolerance for `allclose` (`1e-5`). -/
def rtolDefault : ℚ := 1 / 100000

/-- Documented default absolute tolerance for `allclose` (`1e-8`). -/
def atolDefault : ℚ := 1 / 100000000

/-- The documented behaviour of `allclose` from the specification, stated as
a separate definition to compare against the source embedding `F.allclose`:
true iff the shapes match and every element pair satisfies
`|a - b| <= atol + rtol * |b|`, with the documented default tolerances
substituted for missing arguments. -/
def allcloseSpec (a b : Tensor) (rtol atol : Option ℚ) : Bool :=
  let rt := rtol.getD rtolDefault
  let av := atol.getD atolDefault
  decide (a.shape = b.shape) && decide (a.data.length = b.data.length) &&
    (List.zip a.data b.data).all (fun p => decide (|p.1 - p.2| ≤ av + rt * |p.2|))

/-- Modelled from the spec: the causal mask of scaled_dot_product_attention
(`scaled_dot_product_attention.rs` is not in the sources), built by the
Triangular Mask Builder as the lower-triangular mask with diagonal offset 0:
position `(i, j)` is allowed exactly when `j - i <= 0`. -/
def causalMask (Lq Lk : Nat) : Fin Lq → Fin Lk → Bool :=
  fun i j => decide (((j : Nat) : ℤ) - ((i : Nat) : ℤ) ≤ 0)

/-- Modelled from the spec: raw attention scores `S = (Q Kt) * scale` for one
batch-and-head slice. -/
def rawScores {Lq Lk E : Nat} (q : Fin Lq → Fin E → ℚ) (k : Fin Lk → Fin E → ℚ)
    (scale : ℚ) : Fin Lq → Fin Lk → ℚ :=
  fun i j => (∑ t : Fin E, q i t * k j t) * scale

/-- Modelled from the spec: scores after causal exclusion: an excluded score
position is set to negative infinity, represented here as `none`. -/
def causalMaskedScores {Lq Lk : Nat} (s : Fin Lq → Fin Lk → ℚ) :
    Fin Lq → Fin Lk → Option ℚ :=
  fun i j => if causalMask Lq Lk i j then some (s i j) else none

/-- The working exponential extended to negative infinity: exp of negative
infinity is 0, and on finite scores the parameter `e` is applied. -/
def expExt (e : ℚ → ℚ) : Option ℚ → ℚ
  | none => 0
  | some x => e x

/-- Modelled from the spec: softmax along the last axis over extended
scores: each exponentiated entry divided by the row sum. -/
def softmaxRow {Lk : Nat} (e : ℚ → ℚ) (row : Fin Lk → Option ℚ) : Fin Lk → ℚ :=
  fun j => expExt e (row j) / ∑ j2 : Fin Lk, expExt e (row j2)

/-- Modelled from the spec: the attention weights `A` of
scaled_dot_product_attention with is_causal set and no explicit mask, for
one batch-and-head slice: softmax of the causally masked scaled scores. -/
def sdpaCausalWeights {Lq Lk E : Nat} (e : ℚ → ℚ) (q : Fin Lq → Fin E → ℚ)
    (k : Fin Lk → Fin E → ℚ) (scale : ℚ) : Fin Lq → Fin Lk → ℚ :=
  fun i => softmaxRow e (causalMaskedScores (rawScores q k scale) i)

/-- A one-element tensor holding 0, used as a concrete input. -/
def tensorZero : Tensor := ⟨[1], [0]⟩

/-- A one-element tensor holding 1, used as a concrete input. -/
def tensorOne : Tensor := ⟨[1], [1]⟩

/-- A concrete 2-by-1 query matrix of ones, used as a concrete input. -/
def qSample : Fin 2 → Fin 1 → ℚ := fun _ _ => 1

/-- A concrete 2-by-1 key matrix of ones, used as a concrete input. -/
def kSample : Fin 2 → Fin 1 → ℚ := fun _ _ => 1

/-- C1: the claim states that `F::allclose` returns true iff shapes match
and every element pair is within the documented tolerance.  The source
instead returns `Ok(true)` unconditionally: on the one-element tensors 0
and 1 with default tolerances the code answers true while the documented
comparison answers false.  This contradicts the function's own doc comment,
so the code, not the claim, is at fault. -/
theorem allclose_code_contradicts_documented_tolerance :
    F.allclose tensorZero tensorOne none none = Except.ok true ∧
      allcloseSpec tensorZero tensorOne none none = false := by
  refine ⟨rfl, ?_⟩
  norm_num [allcloseSpec, tensorZero, tensorOne, rtolDefault, atolDefault]

/-- C2: for every pair of input tensors and every choice of tolerances,
`F::allclose` returns `Ok(true)` regardless of shapes or element values. -/
theorem allclose_always_ok_true (a b : Tensor) (rtol atol : Option ℚ) :
    F.allclose a b rtol atol = Except.ok true :=
  rfl

/-- C3: every `TensorExt` method returns exactly the same result as the
corresponding free function on `F` applied to the same arguments; the
method form adds no extra checks or transformations. -/
theorem tensorExt_methods_delegate_to_F :
    (∀ (r c : Nat) (x : Fin r → Fin c → ℚ) (d : ℤ),
        TensorExt.tril x d = F.tril x d) ∧
    (∀ (r c : Nat) (x : Fin r → Fin c → ℚ) (d : ℤ),
        TensorExt.triu x d = F.triu x d) ∧
    (∀ (ι : Type) (x : ι → Bool), TensorExt.logical_not x = F.logical_not x) ∧
    (∀ (ι : Type) (x : ι → ℚ) (v : ℚ),
        TensorExt.values_like x v = F.values_like x v) ∧
    (∀ (ι : Type) (x : ι → ℚ) (m : ι → Bool) (v : ℚ),
        TensorExt.masked_fill x m v = F.masked_fill x m v) ∧
    (∀ (n m : Nat) (a : Fin n → ℚ) (b : Fin m → ℚ),
        TensorExt.outer a b = F.outer a b) ∧
    (∀ n : Nat, TensorExt.eye n = F.eye n) ∧
    (∀ a b : Tensor, TensorExt.equal a b = F.equal a b) ∧
    (∀ (n : Nat) (α : Type) (x : Fin n → α), TensorExt.unbind x = F.unbind x) ∧
    (∀ (n : Nat) (α : Type) (x : Fin n → α), TensorExt.unbind2 x = F.unbind2 x) ∧
    (∀ (n : Nat) (α : Type) (x : Fin n → α), TensorExt.unbind3 x = F.unbind3 x) ∧
    (∀ (n : Nat) (α : Type) (x : Fin n → α), TensorExt.unbind4 x = F.unbind4 x) ∧
    (∀ (n : Nat) (α : Type) (x : Fin n → α), TensorExt.unbind5 x = F.unbind5 x) ∧
    (∀ (n : Nat) (α : Type) (x : Fin n → α), TensorExt.chunk2 x = F.chunk2 x) ∧
    (∀ (n : Nat) (α : Type) (x : Fin n → α), TensorExt.chunk3 x = F.chunk3 x) ∧
    (∀ (n : Nat) (α : Type) (x : Fin n → α), TensorExt.chunk4 x = F.chunk4 x) ∧
    (∀ (n : Nat) (α : Type) (x : Fin n → α), TensorExt.chunk5 x = F.chunk5 x) ∧
    (∀ v : List Tensor, TensorVecExt.unbind2 v = F.unbind_vec2 v) ∧
    (∀ v : List Tensor, TensorVecExt.unbind3 v = F.unbind_vec3 v) ∧
    (∀ v : List Tensor, TensorVecExt.unbind4 v = F.unbind_vec4 v) ∧
    (∀ v : List Tensor, TensorVecExt.unbind5 v = F.unbind_vec5 v) := by
  refine ⟨?_, ?_, ?_, ?_, ?_, ?_, ?_, ?_, ?_, ?_, ?_, ?_, ?_, ?_, ?_, ?_, ?_,
    ?_, ?_, ?_, ?_⟩ <;> intros <;> rfl

/-- C4: with is_causal set and no explicit mask, every attention weight
strictly above the diagonal is zero: `A i j = 0` whenever `j > i`, for any
query and key contents, any scale and any working exponential (and hence
for every batch and head slice). -/
theorem sdpa_causal_upper_weights_zero {Lq Lk E : Nat} (e : ℚ → ℚ)
    (q : Fin Lq → Fin E → ℚ) (k : Fin Lk → Fin E → ℚ) (scale : ℚ)
    (i : Fin Lq) (j : Fin Lk) (h : (i : Nat) < (j : Nat)) :
    sdpaCausalWeights e q k scale i j = 0 := by
  have hm : causalMask Lq Lk i j = false := by
    simp only [causalMask, decide_eq_false_iff_not]
    omega
  simp [sdpaCausalWeights, softmaxRow, causalMaskedScores, hm, expExt]

/-- Witness for C4 at a concrete input: weight (0, 1) of a 2-by-2 causal
attention is zero. -/
theorem sdpa_causal_upper_weights_zero_witness :
    sdpaCausalWeights id qSample kSample 1 0 1 = 0 :=
  sdpa_causal_upper_weights_zero id qSample kSample 1 0 1 (by decide)

/-- C5: for each N in 2..5, the sequence-input `unbindN` on a vector of
tensors succeeds exactly when the vector has length N, then returning the
tuple of the vector's elements in order, and fails with ArityMismatch
otherwise. -/
theorem tensorVec_unbind_arity (v : List Tensor) :
    (((∃ p, TensorVecExt.unbind2 v = Except.ok p) ↔ v.length = 2) ∧
      (∀ a b, v = [a, b] → TensorVecExt.unbind2 v = Except.ok (a, b)) ∧
      (v.length ≠ 2 →
        TensorVecExt.unbind2 v = Except.error CandleError.arityMismatch)) ∧
    (((∃ p, TensorVecExt.unbind3 v = Except.ok p) ↔ v.length = 3) ∧
      (∀ a b c, v = [a, b, c] → TensorVecExt.unbind3 v = Except.ok (a, b, c)) ∧
      (v.length ≠ 3 →
        TensorVecExt.unbind3 v = Except.error CandleError.arityMismatch)) ∧
    (((∃ p, TensorVecExt.unbind4 v = Except.ok p) ↔ v.length = 4) ∧
      (∀ a b c d, v = [a, b, c, d] →
        TensorVecExt.unbind4 v = Except.ok (a, b, c, d)) ∧
      (v.length ≠ 4 →
        TensorVecExt.unbind4 v = Except.error CandleError.arityMismatch)) ∧
    (((∃ p, TensorVecExt.unbind5 v = Except.ok p) ↔ v.length = 5) ∧
      (∀ a b c d e, v = [a, b, c, d, e] →
        TensorVecExt.unbind5 v = Except.ok (a, b, c, d, e)) ∧
      (v.length ≠ 5 →
        TensorVecExt.unbind5 v = Except.error CandleError.arityMismatch)) := by
  rcases v with _ | ⟨a, _ | ⟨b, _ | ⟨c, _ | ⟨d, _ | ⟨e, _ | ⟨f, t⟩⟩⟩⟩⟩⟩ <;>
    simp [TensorVecExt.unbind2, TensorVecExt.unbind3, TensorVecExt.unbind4,
      TensorVecExt.unbind5, F.unbind_vec2, F.unbind_vec3, F.unbind_vec4,
      F.unbind_vec5]

/-- Witness for C5 at concrete inputs: destructuring a two-element vector
succeeds with its elements in order, and a one-element vector fails the
arity check of `unbind3`. -/
theorem tensorVec_unbind_arity_witness :
    TensorVecExt.unbind2 [tensorZero, tensorOne] =
        Except.ok (tensorZero, tensorOne) ∧
      TensorVecExt.unbind3 [tensorZero] =
        Except.error CandleError.arityMismatch :=
  ⟨(tensorVec_unbind_arity [tensorZero, tensorOne]).1.2.1 tensorZero tensorOne
      rfl,
    (tensorVec_unbind_arity [tensorZero]).2.1.2.2 (by decide)⟩

/-- C7: for every matrix X and diagonal offset d, tril(X, d) and
triu(X, d + 1) partition X: their elementwise sum gives back X. -/
theorem tril_add_triu_eq (r c : Nat) (X : Fin r → Fin c → ℚ) (d : ℤ)
    (i : Fin r) (j : Fin c) :
    F.tril X d i j + F.triu X (d + 1) i j = X i j := by
  unfold F.tril F.triu
  by_cases h : ((j : Nat) : ℤ) - ((i : Nat) : ℤ) ≤ d
  · rw [if_pos h, if_neg (by omega), add_zero]
  · rw [if_neg h, if_pos (by omega), zero_add]

/-- C8: `masked_fill` with an all-false mask returns X unchanged, and with
an all-true mask returns `values_like(X, v)`. -/
theorem masked_fill_extreme_masks (ι : Type) (X : ι → ℚ) (v : ℚ) :
    F.masked_fill X (fun _ => false) v = X ∧
      F.masked_fill X (fun _ => true) v = F.values_like X v := by
  constructor <;> funext idx <;> simp [F.masked_fill, F.values_like]

/-- C9: `F::allclose` never returns an error, for any inputs including
mismatched shapes: it always produces an `Ok` value. -/
theorem allclose_never_errors (a b : Tensor) (rtol atol : Option ℚ) :
    ∃ r : Bool, F.allclose a b rtol atol = Except.ok r :=
  ⟨true, rfl⟩

/-- C10: `F::allclose` is reflexive: comparing any tensor with itself
yields `Ok(true)` for every choice of tolerances. -/
theorem allclose_reflexive (a : Tensor) (rtol atol : Option ℚ) :
    F.allclose a a rtol atol = Except.ok true :=
  rfl
